import Mathlib

/-
Verification of the gerber2nc core against its specification.

The Python sources (gerber2nc/models.py, gerber2nc/constants.py,
gerber2nc/parsers/gerber.py, gerber2nc/parsers/drill.py,
gerber2nc/processing.py) are shallowly embedded below. Lines of the input
files are modelled as lists of characters, Python floats as exact rationals
(the numeric literals appearing in these files are small decimal fractions),
Python dictionaries as association lists with latest-first lookup, and a
Python exception as the error branch of an `Except` value. The regular
expressions used by the parsers are compiled by hand into character-list
matchers that reproduce the match/backtracking behaviour of the concrete
patterns on their character classes (each class excludes the delimiter that
follows it, so greedy matching coincides with take-while, except for the
one documented backtracking case in the aperture-definition pattern).
-/

/-- Characters of a Python `str.strip()`: drop whitespace at both ends. -/
def stripChars (s : List Char) : List Char :=
  ((s.dropWhile Char.isWhitespace).reverse.dropWhile Char.isWhitespace).reverse

/-- Characters of a Python `str.rstrip('*')`: drop trailing stars. -/
def rstripStar (s : List Char) : List Char :=
  (s.reverse.dropWhile (fun c => c = '*')).reverse

/-- Whether `pat` is a prefix of `s` (character by character). -/
def startsWithChars : List Char → List Char → Bool
  | [], _ => true
  | _ :: _, [] => false
  | a :: as, b :: bs => a = b && startsWithChars as bs

/-- Python's `pat in s` substring test. -/
def hasSubstr (pat : List Char) : List Char → Bool
  | [] => startsWithChars pat []
  | c :: cs => startsWithChars pat (c :: cs) || hasSubstr pat cs

/-- Python's `s.split(c)` on a character separator; may produce empty pieces. -/
def splitOnChar (c : Char) : List Char → List (List Char)
  | [] => [[]]
  | ch :: rest =>
    match splitOnChar c rest with
    | [] => [[ch]]
    | h :: t => if ch = c then [] :: h :: t else (ch :: h) :: t

/-- Numeric value of a digit run (most significant first). -/
def natOfDigits (ds : List Char) : ℕ :=
  ds.foldl (fun n c => 10 * n + (c.toNat - 48)) 0

/-- Exact value of the decimal literal `ds.fs`. -/
def decimalValue (ds fs : List Char) : ℚ :=
  (natOfDigits ds : ℚ) + (natOfDigits fs : ℚ) / (10 : ℚ) ^ fs.length

/-- Unsigned part of Python's `float(s)` on the plain decimal fragment
`digits`, `digits.digits`, `.digits` or `digits.`; `none` models the
`ValueError` raised on anything else (the parsers only feed this function
strings drawn from the character class of digits, dots and a sign, where
the remaining `float` forms such as exponents cannot occur). -/
def pyFloatCore (s : List Char) : Option ℚ :=
  let ds := s.takeWhile Char.isDigit
  match s.drop ds.length with
  | [] => if ds = [] then none else some ((natOfDigits ds : ℚ))
  | '.' :: fs =>
    if fs.all Char.isDigit ∧ (ds ≠ [] ∨ fs ≠ []) then some (decimalValue ds fs)
    else none
  | _ => none

/-- Python's `float(s)` with an optional sign, as an exact rational. -/
def pyFloat : List Char → Option ℚ
  | '-' :: r => (pyFloatCore r).map (fun v => -v)
  | '+' :: r => pyFloatCore r
  | s => pyFloatCore s

/-- First-match association-list lookup; Python dict assignment is modelled
by prepending, so the most recent binding for a key wins. -/
def alistFind {α β : Type} [DecidableEq α] (k : α) : List (α × β) → Option β
  | [] => none
  | (k', v) :: rest => if k' = k then some v else alistFind k rest

/-- constants.py: GERBER_SCALE = 1e-6. -/
def GERBER_SCALE : ℚ := 1 / 1000000

/-- constants.py: MM_PER_INCH = 25.4. -/
def MM_PER_INCH : ℚ := 127 / 5

/-- constants.py: DRILL_FORMAT_INCH = 10000.0. -/
def DRILL_FORMAT_INCH : ℚ := 10000

/-- constants.py: DRILL_FORMAT_METRIC = 1000.0. -/
def DRILL_FORMAT_METRIC : ℚ := 1000

/-- constants.py: MARGIN_PAD = 1.5. -/
def MARGIN_PAD : ℚ := 3 / 2

/-- constants.py: MARGIN_TRACE = 0.6. -/
def MARGIN_TRACE : ℚ := 3 / 5

/-- models.py BoardExtents: the bounding box tracked by every parser. -/
structure BoardExtents where
  x_min : ℚ
  x_max : ℚ
  y_min : ℚ
  y_max : ℚ
deriving DecidableEq

/-- The dataclass defaults of BoardExtents: sentinels 1e9 and -1e9. -/
def initBoardExtents : BoardExtents :=
  { x_min := 10 ^ 9, x_max := -(10 ^ 9), y_min := 10 ^ 9, y_max := -(10 ^ 9) }

/-- BoardExtents.update: expand the box to include (x, y) with a margin. -/
def BoardExtents.update (e : BoardExtents) (x y margin : ℚ) : BoardExtents :=
  { x_min := min e.x_min (x - margin)
    x_max := max e.x_max (x + margin)
    y_min := min e.y_min (y - margin)
    y_max := max e.y_max (y + margin) }

/-- BoardExtents.is_valid: whether any coordinate has been recorded. -/
def BoardExtents.is_valid (e : BoardExtents) : Prop :=
  e.x_min < 10 ^ 8 ∧ e.x_max > -(10 ^ 8)

/-- models.py Aperture: shape descriptor with the same flat fields as the
Python dataclass (`type` is 'circle' or 'rectangle'; unused fields are 0). -/
structure Aperture where
  type : String
  diameter : ℚ
  width : ℚ
  height : ℚ
deriving DecidableEq

/-- gerber.py: the rectangle aperture stored for a `RoundRect` definition,
its bounding rectangle computed as `abs(x2) + abs(x1) + corner_radius` by
`abs(y2) + abs(y1) + corner_radius` (the corner radius is added once). -/
def roundRectAperture (r x1 y1 x2 y2 : ℚ) : Aperture :=
  { type := "rectangle", diameter := 0, width := |x2| + |x1| + r, height := |y2| + |y1| + r }

/-- The mutable attributes of GerberTracesParser: aperture table, selected
aperture (−1 before any selection), traces `[start, end, width]`, pads
`[position, aperture]`, unit multiplier and current pen position, plus the
shared BoardExtents accumulator. -/
structure GerberState where
  apertures : List (ℤ × Aperture)
  current_aperture : ℤ
  traces : List ((ℚ × ℚ) × (ℚ × ℚ) × ℚ)
  pads : List ((ℚ × ℚ) × Aperture)
  unit_mult : ℚ
  current_x : ℚ
  current_y : ℚ
  extents : BoardExtents
deriving DecidableEq

/-- GerberTracesParser.__init__ attribute initialisation. -/
def initGerberState : GerberState :=
  { apertures := [], current_aperture := -1, traces := [], pads := [],
    unit_mult := 1, current_x := 0, current_y := 0, extents := initBoardExtents }

/-- Match of `re.match(r'%ADD(\d+)([^,]+),([^*]+)\*%', line)`, returning the
aperture number, shape-code group and raw parameter group. The digit group
is greedy; when the character after the digits is already the comma the
engine backtracks one digit into the `[^,]+` group (the only backtracking
the pattern admits, since each class excludes the delimiter that follows). -/
def addMatch (line : List Char) : Option (ℕ × List Char × List Char) :=
  match line with
  | '%' :: 'A' :: 'D' :: 'D' :: rest =>
    let ds := rest.takeWhile Char.isDigit
    if ds = [] then none
    else
      let after := rest.drop ds.length
      let seg := after.takeWhile (fun c => c ≠ ',')
      if seg = [] then
        match after, ds.getLast? with
        | ',' :: rest2, some lastDigit =>
          if ds.dropLast = [] then none
          else
            let g3 := rest2.takeWhile (fun c => c ≠ '*')
            if g3 = [] then none
            else
              match rest2.drop g3.length with
              | '*' :: '%' :: _ => some (natOfDigits ds.dropLast, [lastDigit], g3)
              | _ => none
        | _, _ => none
      else
        match after.drop seg.length with
        | ',' :: rest2 =>
          let g3 := rest2.takeWhile (fun c => c ≠ '*')
          if g3 = [] then none
          else
            match rest2.drop g3.length with
            | '*' :: '%' :: _ => some (natOfDigits ds, seg, g3)
            | _ => none
        | _ => none
  | _ => none

/-- Match of `re.match(r'D(\d+)', line)`: leading `D` and its digit group. -/
def dSelMatch (line : List Char) : Option ℕ :=
  match line with
  | 'D' :: r =>
    let ds := r.takeWhile Char.isDigit
    if ds = [] then none else some (natOfDigits ds)
  | _ => none

/-- A signed numeric token `-?[0-9.]+` read greedily from the front of `s`;
returns the token (sign included, as the regex group does) and the rest. -/
def signedNumTok (s : List Char) : Option (List Char × List Char) :=
  match s with
  | '-' :: r =>
    let b := r.takeWhile (fun c => c.isDigit || c = '.')
    if b = [] then none else some ('-' :: b, r.drop b.length)
  | r =>
    let b := r.takeWhile (fun c => c.isDigit || c = '.')
    if b = [] then none else some (b, r.drop b.length)

/-- Match of `re.match(r'X(-?[0-9.]+)Y(-?[0-9.]+)D0([0123])?', line)`: the
two coordinate groups and the optional operation digit (which is `None`
when the character after `D0` is absent or not in `[0123]`). -/
def coordMatch (line : List Char) : Option (List Char × List Char × Option ℕ) :=
  match line with
  | 'X' :: r1 =>
    match signedNumTok r1 with
    | none => none
    | some (g1, r2) =>
      match r2 with
      | 'Y' :: r3 =>
        match signedNumTok r3 with
        | none => none
        | some (g2, r4) =>
          match r4 with
          | 'D' :: '0' :: r5 =>
            let g3 : Option ℕ :=
              match r5 with
              | c :: _ =>
                if c = '0' ∨ c = '1' ∨ c = '2' ∨ c = '3' then some (c.toNat - 48) else none
              | [] => none
            some (g1, g2, g3)
          | _ => none
      | _ => none
  | _ => none

/-- Store an aperture under its number; the debug log that indexes
`self.apertures[num]` afterwards cannot fail on this path because the
entry was just written. -/
def withAperture (st : GerberState) (num : ℕ) (ap : Aperture) : Except String GerberState :=
  Except.ok { st with apertures := ((num : ℤ), ap) :: st.apertures }

/-- GerberTracesParser._process_extended_command: unit-mode substring
checks, then the aperture-definition pattern. Circle, rectangle and
rounded-rectangle shape codes store an aperture; any other shape code
stores nothing, after which the debug log line indexes
`self.apertures[num]` and raises `KeyError` unless that number was already
defined earlier. Failing `float(...)` conversions and a short RoundRect
parameter list are the other exception paths. -/
def processExtendedCommand (st : GerberState) (line : List Char) : Except String GerberState :=
  let st :=
    if hasSubstr "MOMM*%".data line then { st with unit_mult := 1 }
    else if hasSubstr "MOIN*%".data line then { st with unit_mult := MM_PER_INCH }
    else st
  match addMatch line with
  | none => Except.ok st
  | some (num, apType, paramsRaw) =>
    let params := splitOnChar 'X' paramsRaw
    if apType = "C".data then
      match pyFloat (params.getD 0 []) with
      | none => Except.error "ValueError"
      | some d => withAperture st num { type := "circle", diameter := d, width := 0, height := 0 }
    else if apType = "R".data then
      match pyFloat (params.getD 0 []) with
      | none => Except.error "ValueError"
      | some w =>
        if 1 < params.length then
          match pyFloat (params.getD 1 []) with
          | none => Except.error "ValueError"
          | some h => withAperture st num { type := "rectangle", diameter := 0, width := w, height := h }
        else withAperture st num { type := "rectangle", diameter := 0, width := w, height := w }
    else if apType = "RoundRect".data then
      if params.length < 5 then Except.error "IndexError"
      else
        match pyFloat (params.getD 0 []), pyFloat (params.getD 1 []), pyFloat (params.getD 2 []),
            pyFloat (params.getD 3 []), pyFloat (params.getD 4 []) with
        | some r, some x1, some y1, some x2, some y2 =>
          withAperture st num (roundRectAperture r x1 y1 x2 y2)
        | _, _, _, _, _ => Except.error "ValueError"
    else
      if (alistFind (num : ℤ) st.apertures).isSome then Except.ok st
      else Except.error "KeyError"

/-- GerberTracesParser._process_command: strip trailing stars, try the
aperture-selection pattern (numbers below 10 are reserved and ignored),
then the coordinate pattern. A matched coordinate command converts both
groups with `float`, converts the optional operation group with `int`
(raising `TypeError` when that group matched nothing), updates the extents
with the pad or trace margin, appends a trace on a draw with a known
aperture (trace width is the aperture's diameter when that is non-zero,
its width otherwise) or a pad on a flash with a known aperture, and
finally moves the pen to (x, y). -/
def processCommand (st : GerberState) (line0 : List Char) : Except String GerberState :=
  let line := rstripStar line0
  match dSelMatch line with
  | some num =>
    Except.ok (if 10 ≤ num then { st with current_aperture := (num : ℤ) } else st)
  | none =>
    match coordMatch line with
    | none => Except.ok st
    | some (g1, g2, g3) =>
      match pyFloat g1 with
      | none => Except.error "ValueError"
      | some fx =>
        match pyFloat g2 with
        | none => Except.error "ValueError"
        | some fy =>
          match g3 with
          | none => Except.error "TypeError"
          | some op =>
            let x := fx * GERBER_SCALE * st.unit_mult
            let y := fy * GERBER_SCALE * st.unit_mult
            let margin := if op = 3 then MARGIN_PAD else MARGIN_TRACE
            let st := { st with extents := st.extents.update x y margin }
            let st :=
              if op = 1 then
                match alistFind st.current_aperture st.apertures with
                | some ap =>
                  { st with traces := st.traces ++
                      [((st.current_x, st.current_y), (x, y),
                        if ap.diameter ≠ 0 then ap.diameter else ap.width)] }
                | none => st
              else if op = 3 then
                match alistFind st.current_aperture st.apertures with
                | some ap => { st with pads := st.pads ++ [((x, y), ap)] }
                | none => st
              else st
            Except.ok { st with current_x := x, current_y := y }

/-- One line of GerberTracesParser._parse_file: strip, skip empty lines,
dispatch `%`-lines to the extended-command handler and the rest to the
command handler. -/
def gerberStep (st : GerberState) (raw : List Char) : Except String GerberState :=
  let line := stripChars raw
  if line = [] then Except.ok st
  else
    match line with
    | '%' :: _ => processExtendedCommand st line
    | _ => processCommand st line

/-- The line loop of GerberTracesParser._parse_file; an exception raised on
any line aborts the whole parse (there is no handler in the source). -/
def gerberFold (st : GerberState) : List (List Char) → Except String GerberState
  | [] => Except.ok st
  | l :: ls =>
    match gerberStep st l with
    | Except.error e => Except.error e
    | Except.ok st2 => gerberFold st2 ls

/-- Parse a copper-layer file given as its list of lines
(`content.split('\n')` in the source), from a fresh parser state. -/
def parseGerberLines (lines : List (List Char)) : Except String GerberState :=
  gerberFold initGerberState lines

/-- Whether a parser run completed without raising. -/
def exceptIsOk {α : Type} : Except String α → Bool
  | Except.ok _ => true
  | Except.error _ => false

/-- The aperture stored under a number after a successful run. -/
def apertureOfRun (e : Except String GerberState) (n : ℤ) : Option Aperture :=
  match e with
  | Except.ok st => alistFind n st.apertures
  | Except.error _ => none

/-- The pen x position after a successful run. -/
def currentXOfRun : Except String GerberState → Option ℚ
  | Except.ok st => some st.current_x
  | Except.error _ => none

/-- The loop state of DrillFileParser._parse_file: the tool table keyed by
the digit strings of tool numbers, the hole list, the extents accumulator,
and the loop-local unit multiplier, implied-decimal divisor and active
tool. -/
structure DrillState where
  tool_diameters : List (List Char × ℚ)
  holes : List (ℚ × ℚ × ℚ)
  extents : BoardExtents
  units_mult : ℚ
  coord_scale : ℚ
  current_tool : Option (List Char)
deriving DecidableEq

/-- DrillFileParser state before the line loop. -/
def initDrillState : DrillState :=
  { tool_diameters := [], holes := [], extents := initBoardExtents,
    units_mult := 1, coord_scale := 1, current_tool := none }

/-- Match of `re.match(r'^T(\d+)C([\d.]+)', line)`: tool digit string and
raw diameter string. -/
def toolDefMatch (line : List Char) : Option (List Char × List Char) :=
  match line with
  | 'T' :: r =>
    let ds := r.takeWhile Char.isDigit
    if ds = [] then none
    else
      match r.drop ds.length with
      | 'C' :: r2 =>
        let vs := r2.takeWhile (fun c => c.isDigit || c = '.')
        if vs = [] then none else some (ds, vs)
      | _ => none
  | _ => none

/-- Match of `re.match(r'^T(\d+)$', line)`: the whole line is `T` followed
by digits. -/
def toolSelMatch (line : List Char) : Option (List Char) :=
  match line with
  | 'T' :: r => if r ≠ [] ∧ r.all Char.isDigit then some r else none
  | _ => none

/-- Match of `re.match(r'^X(-?[\d.]+)Y(-?[\d.]+)', line)`: the two raw
coordinate strings (signs included). -/
def drillCoordMatch (line : List Char) : Option (List Char × List Char) :=
  match line with
  | 'X' :: r1 =>
    match signedNumTok r1 with
    | none => none
    | some (g1, r2) =>
      match r2 with
      | 'Y' :: r3 =>
        match signedNumTok r3 with
        | none => none
        | some (g2, _) => some (g1, g2)
      | _ => none
  | _ => none

/-- One line of DrillFileParser._detect_decimal_format: the stripped line
matches the coordinate pattern and its `line.split('Y')[0]` field contains
a decimal point. -/
def detectLineHasDecimal (raw : List Char) : Bool :=
  let line := stripChars raw
  (drillCoordMatch line).isSome && (line.takeWhile (fun c => c ≠ 'Y')).contains '.'

/-- DrillFileParser._detect_decimal_format over the whole file. -/
def detectDecimalFormat (lines : List (List Char)) : Bool :=
  lines.any detectLineHasDecimal

/-- The METRIC/INCH substring checks of the drill line loop: METRIC keeps
the unit multiplier at 1, INCH sets it to 25.4, and either installs its
implied-decimal divisor only when the file was detected as having no
decimal coordinates. -/
def drillUnits (hasDec : Bool) (st : DrillState) (lu : List Char) : DrillState :=
  if hasSubstr "METRIC".data lu then
    { st with
      units_mult := 1
      coord_scale := if hasDec then st.coord_scale else DRILL_FORMAT_METRIC }
  else if hasSubstr "INCH".data lu then
    { st with
      units_mult := MM_PER_INCH
      coord_scale := if hasDec then st.coord_scale else DRILL_FORMAT_INCH }
  else st

/-- DrillFileParser._parse_coord: a coordinate string containing a literal
decimal point is a literal number times the unit multiplier; otherwise the
raw value is divided by the implied-decimal divisor first. A failed
`float` conversion is the `ValueError` branch. -/
def parseCoordScaled (s : List Char) (scale units : ℚ) : Except String ℚ :=
  match pyFloat s with
  | none => Except.error "ValueError"
  | some v => if '.' ∈ s then Except.ok (v * units) else Except.ok (v / scale * units)

/-- The directive part of one drill loop iteration, after the unit checks:
tool definition (diameter scaled by the current unit multiplier), tool
selection, then a coordinate line which — only with an active tool —
parses both axes, appends a hole using the active tool's diameter with
0.8 as the fallback for an unknown tool, and updates the extents with no
margin. The coordinate parser is a parameter so that the detected-format
variants below share this definition. -/
def drillDirectives (cp : List Char → ℚ → ℚ → Except String ℚ)
    (st1 : DrillState) (line : List Char) : Except String DrillState :=
  match toolDefMatch line with
  | some td =>
    match pyFloat td.2 with
    | none => Except.error "ValueError"
    | some d =>
      Except.ok { st1 with tool_diameters := (td.1, d * st1.units_mult) :: st1.tool_diameters }
  | none =>
    match toolSelMatch line with
    | some t => Except.ok { st1 with current_tool := some t }
    | none =>
      match drillCoordMatch line with
      | some xy =>
        match st1.current_tool with
        | some t =>
          match cp xy.1 st1.coord_scale st1.units_mult with
          | Except.error e => Except.error e
          | Except.ok x =>
            match cp xy.2 st1.coord_scale st1.units_mult with
            | Except.error e => Except.error e
            | Except.ok y =>
              Except.ok { st1 with
                holes := st1.holes ++ [(x, y, (alistFind t st1.tool_diameters).getD (4 / 5))],
                extents := st1.extents.update x y 0 }
        | none => Except.ok st1
      | none => Except.ok st1

/-- The shape shared by one iteration of the drill line loop and its
specification-side variants: skip blank and comment lines, apply a
unit-directive update to the upper-cased line, then the directive
matches. -/
def drillStepWith (uf : DrillState → List Char → DrillState)
    (cp : List Char → ℚ → ℚ → Except String ℚ)
    (st : DrillState) (line : List Char) : Except String DrillState :=
  if line = [] then Except.ok st
  else if line.head? = some ';' then Except.ok st
  else drillDirectives cp (uf st (line.map Char.toUpper)) line

/-- One iteration of the DrillFileParser line loop on a stripped line. -/
def drillStep (hasDec : Bool) (st : DrillState) (raw : List Char) : Except String DrillState :=
  drillStepWith (drillUnits hasDec) parseCoordScaled st (stripChars raw)

/-- The drill line loop; an uncaught exception aborts the parse. -/
def drillFold (hasDec : Bool) (st : DrillState) : List (List Char) → Except String DrillState
  | [] => Except.ok st
  | l :: ls =>
    match drillStep hasDec st l with
    | Except.error e => Except.error e
    | Except.ok st2 => drillFold hasDec st2 ls

/-- Parse a drill file given as its list of lines: detect the coordinate
format globally, then run the line loop from a fresh state. -/
def parseDrillLines (lines : List (List Char)) : Except String DrillState :=
  drillFold (detectDecimalFormat lines) initDrillState lines

/-- The hole list after a successful drill run. -/
def holesOfRun : Except String DrillState → Option (List (ℚ × ℚ × ℚ))
  | Except.ok st => some st.holes
  | Except.error _ => none

/-- Explicit-decimal mode as the specification describes it: every
coordinate token is read as a literal decimal number times the unit
multiplier, and no implied-decimal divisor is ever installed or applied. -/
def parseCoordExplicit (s : List Char) (units : ℚ) : Except String ℚ :=
  match pyFloat s with
  | none => Except.error "ValueError"
  | some v => Except.ok (v * units)

/-- Unit directives in explicit-decimal mode: only the unit multiplier
changes, the coordinate scale is untouched. -/
def drillUnitsExplicit (st : DrillState) (lu : List Char) : DrillState :=
  if hasSubstr "METRIC".data lu then { st with units_mult := 1 }
  else if hasSubstr "INCH".data lu then { st with units_mult := MM_PER_INCH }
  else st

/-- One drill loop iteration in explicit-decimal mode. -/
def drillStepExplicit (st : DrillState) (raw : List Char) : Except String DrillState :=
  drillStepWith drillUnitsExplicit (fun s _ u => parseCoordExplicit s u) st (stripChars raw)

/-- The drill line loop in explicit-decimal mode. -/
def drillFoldExplicit (st : DrillState) : List (List Char) → Except String DrillState
  | [] => Except.ok st
  | l :: ls =>
    match drillStepExplicit st l with
    | Except.error e => Except.error e
    | Except.ok st2 => drillFoldExplicit st2 ls

/-- Unit directives in the implied-decimal convention as the specification
describes it: METRIC keeps the unit multiplier at 1 and installs the fixed
metric divisor, INCH sets the multiplier to 25.4 and installs the fixed
inch divisor. -/
def drillUnitsImplied (st : DrillState) (lu : List Char) : DrillState :=
  if hasSubstr "METRIC".data lu then
    { st with units_mult := 1, coord_scale := DRILL_FORMAT_METRIC }
  else if hasSubstr "INCH".data lu then
    { st with units_mult := MM_PER_INCH, coord_scale := DRILL_FORMAT_INCH }
  else st

/-- One drill loop iteration in the implied-decimal convention: a token
with a literal decimal point is read literally times the unit multiplier,
any other token is divided by the installed divisor first. -/
def drillStepImplied (st : DrillState) (raw : List Char) : Except String DrillState :=
  drillStepWith drillUnitsImplied parseCoordScaled st (stripChars raw)

/-- The drill line loop in the implied-decimal convention. -/
def drillFoldImplied (st : DrillState) : List (List Char) → Except String DrillState
  | [] => Except.ok st
  | l :: ls =>
    match drillStepImplied st l with
    | Except.error e => Except.error e
    | Except.ok st2 => drillFoldImplied st2 ls

/-- An interface for the planar-geometry library used by processing.py
(shapely). `Geo` is an opaque region value and `Curve` one boundary
polyline; `boundary` returns the list of polyline components of a region's
boundary, covering both the `geoms`-bearing multi-part result and the
single-part result of the source's `hasattr` branch. The four laws record
the library's documented behaviour on empty geometry: the union of
nothing is empty, buffering and simplifying empty geometry keep it empty,
and the boundary of empty geometry has no components (GEOS returns an
empty multi-line, so the output constructor receives no parts and cannot
fail). -/
structure GeoModel where
  Geo : Type
  Curve : Type
  emptyGeo : Geo
  unionAll : List Geo → Geo
  buffer : Geo → ℚ → Geo
  simplify : Geo → ℚ → Geo
  boundary : Geo → List Curve
  lineString : ℚ × ℚ → ℚ × ℚ → Geo
  pointGeo : ℚ × ℚ → Geo
  boxRect : ℚ → ℚ → ℚ → ℚ → Geo
  unionAll_nil : unionAll [] = emptyGeo
  buffer_empty : ∀ d, buffer emptyGeo d = emptyGeo
  simplify_empty : ∀ t, simplify emptyGeo t = emptyGeo
  boundary_empty : boundary emptyGeo = []

/-- ToolpathGenerator._build_geometry: traces become lines buffered by half
their width, circular pads become buffered points, rectangular pads become
axis-aligned boxes centred on their position, and any other aperture type
is skipped with only a diagnostic. -/
def buildGeometry (M : GeoModel) (traces : List ((ℚ × ℚ) × (ℚ × ℚ) × ℚ))
    (pads : List ((ℚ × ℚ) × Aperture)) : List M.Geo :=
  traces.map (fun t => M.buffer (M.lineString t.1 t.2.1) (t.2.2 / 2)) ++
  pads.filterMap (fun p =>
    if p.2.type = "circle" then some (M.buffer (M.pointGeo p.1) (p.2.diameter / 2))
    else if p.2.type = "rectangle" then
      some (M.boxRect (p.1.1 - p.2.width / 2) (p.1.2 - p.2.height / 2)
        (p.1.1 + p.2.width / 2) (p.1.2 + p.2.height / 2))
    else none)

/-- The offsets of the passes of ToolpathGenerator.compute_toolpaths, in
emission order: `offset_distance + path_spacing * pass_num` for each pass
number below `num_passes`. -/
def toolpathOffsets (offset_distance : ℚ) (num_passes : ℕ) (path_spacing : ℚ) : List ℚ :=
  (List.range num_passes).map (fun i : ℕ => offset_distance + path_spacing * (i : ℚ))

/-- The per-pass boundary extraction of compute_toolpaths: buffer the
combined geometry outward by the pass offset, simplify with the fixed
0.03 tolerance, and take the boundary's polyline components. -/
def toolpathPass (M : GeoModel) (g : M.Geo) (offset : ℚ) : List M.Curve :=
  M.boundary (M.simplify (M.buffer g offset) (3 / 100))

/-- The passes of compute_toolpaths in loop order; every pass is computed
from the same combined geometry `g`, never from a previous pass. -/
def toolpathPasses (M : GeoModel) (g : M.Geo) (offset_distance : ℚ) (num_passes : ℕ)
    (path_spacing : ℚ) : List (List M.Curve) :=
  (toolpathOffsets offset_distance num_passes path_spacing).map (toolpathPass M g)

/-- ToolpathGenerator.compute_toolpaths: all pass segments flattened in
pass order into the returned collection (the `MultiLineString` of the
source). -/
def computeToolpaths (M : GeoModel) (g : M.Geo) (offset_distance : ℚ) (num_passes : ℕ)
    (path_spacing : ℚ) : List M.Curve :=
  (toolpathPasses M g offset_distance num_passes path_spacing).flatten

/-- A small concrete instance of the geometry interface tracking only
whether any area is present; used to witness the toolpath theorems. -/
def flagGeoModel : GeoModel :=
  { Geo := Bool
    Curve := Unit
    emptyGeo := false
    unionAll := fun gs => gs.any (fun b => b)
    buffer := fun g _ => g
    simplify := fun g _ => g
    boundary := fun g => if g then [()] else []
    lineString := fun _ _ => true
    pointGeo := fun _ => true
    boxRect := fun _ _ _ _ => true
    unionAll_nil := rfl
    buffer_empty := fun _ => rfl
    simplify_empty := fun _ => rfl
    boundary_empty := rfl }

/-- Copper-layer line exhibiting the uncaught `TypeError`: the coordinate
pattern matches `X1Y2D0` with an absent operation group, which is then
passed to `int()`. -/
def c1Line : List Char := "X1Y2D0*".data

/-- Copper-layer aperture definition with the unrecognised shape code `O`. -/
def c2Line : List Char := "%ADD10O,1.0*%".data

/-- Inch-mode round-trip input: select inches, then move to the coordinate
one inch from the origin. -/
def c7Lines : List (List Char) := ["%MOIN*%".data, "X1000000Y0D02*".data]

/-- Rounded-rectangle aperture definition with corner radius 2 and corner
offsets (1, 1) and (1, 1). -/
def c8Line : List Char := "%ADD10RoundRect,2X1X1X1X1*%".data

/-- The drill file of end-to-end scenario C. -/
def c9Lines : List (List Char) :=
  ["METRIC".data, "T1C0.800".data, "T1".data, "X10.0Y10.0".data]

/-- Drill file defining tool `01` with diameter 1.2 but selecting the
numerically equal, textually different tool `1`. -/
def c10LinesNumEq : List (List Char) :=
  ["T01C1.2".data, "T1".data, "X1.0Y1.0".data]

/-- The same drill file selecting the exact digit string `01`. -/
def c10LinesExact : List (List Char) :=
  ["T01C1.2".data, "T01".data, "X1.0Y1.0".data]

/-- The drill state reached by parsing the single line `T1C2.0`: tool `1`
registered with diameter 2. -/
def c10WitnessState : DrillState :=
  { initDrillState with tool_diameters := [("1".data, 2)] }

/-- A drill state with tool `1` active and an empty tool table. -/
def c10StepState : DrillState :=
  { initDrillState with current_tool := some "1".data }

/-- The state after one step of the line `X1.0Y1.0` from `c10StepState`:
one default-diameter hole at (1, 1). -/
def c10StepResult : DrillState :=
  { initDrillState with
    current_tool := some "1".data
    holes := [(1, 1, 4 / 5)]
    extents := { x_min := 1, x_max := 1, y_min := 1, y_max := 1 } }

/-- A drill file whose detected format is explicit decimals and which
exercises both a decimal and a plain-integer coordinate line. -/
def c3Lines : List (List Char) :=
  ["METRIC".data, "T1C0.800".data, "T1".data, "X10.0Y10.0".data, "X100Y200".data]

/-- Flattening a constant-empty family yields the empty list. -/
theorem flatten_map_nil {α β : Type} (l : List α) :
    (l.map (fun _ => ([] : List β))).flatten = [] := by
  induction l with
  | nil => rfl
  | cons a l ih => simp [ih]

/-- C1: the Copper Layer Parser does NOT survive every malformed line. The
line `X1Y2D0*` matches the coordinate pattern with an absent operation
group, and `int(coord_match.group(3))` raises an uncaught `TypeError`, so
the parse aborts instead of logging and continuing. -/
theorem gerber_malformed_coordinate_line_raises :
    parseGerberLines [c1Line] = Except.error "TypeError" ∧
    exceptIsOk (parseGerberLines [c1Line]) = false := by
  constructor
  · rfl
  · rfl

/-- C2: an aperture definition with the unknown shape code `O` stores no
aperture, after which the debug log line indexes `self.apertures[num]` and
raises an uncaught `KeyError`: parsing aborts rather than recording the
code and continuing. -/
theorem gerber_unknown_shape_code_raises :
    parseGerberLines [c2Line] = Except.error "KeyError" ∧
    exceptIsOk (parseGerberLines [c2Line]) = false := by
  constructor
  · rfl
  · rfl

/-- C4 counterexample: with base offset 0, two passes and spacing 0 the
emitted pass offsets are [0, 0], which is not strictly increasing, so the
claim fails when quantified over every spacing. -/
theorem toolpath_offsets_not_strictly_increasing_zero_spacing :
    toolpathOffsets 0 2 0 = [0, 0] ∧
    ¬ (toolpathOffsets 0 2 0).Pairwise (· < ·) := by
  constructor
  · with_unfolding_all rfl
  · intro hp
    have he : toolpathOffsets 0 2 0 = [0, 0] := by with_unfolding_all rfl
    rw [he] at hp
    rcases List.pairwise_cons.mp hp with ⟨h1, _⟩
    exact absurd (h1 0 (by simp)) (lt_irrefl 0)

/-- C4 (amended with positive spacing): compute_toolpaths emits the
flattened passes in loop order; there are exactly `num_passes` passes;
pass `i` is computed from the original combined geometry at offset
`offset_distance + path_spacing * i`, never from a previous pass; and for
positive spacing the pass offsets are strictly increasing in emission
order. -/
theorem compute_toolpaths_pass_structure (M : GeoModel) (g : M.Geo)
    (offset_distance path_spacing : ℚ) (num_passes : ℕ)
    (hN : 1 ≤ num_passes) (hs : 0 < path_spacing) :
    computeToolpaths M g offset_distance num_passes path_spacing =
      (toolpathPasses M g offset_distance num_passes path_spacing).flatten ∧
    (toolpathPasses M g offset_distance num_passes path_spacing).length = num_passes ∧
    (∀ i, i < num_passes →
      (toolpathPasses M g offset_distance num_passes path_spacing)[i]? =
        some (toolpathPass M g (offset_distance + path_spacing * i))) ∧
    (toolpathOffsets offset_distance num_passes path_spacing).Pairwise (· < ·) := by
  refine ⟨rfl, ?_, ?_, ?_⟩
  · simp only [toolpathPasses, toolpathOffsets, List.length_map, List.length_range]
  · intro i hi
    simp only [toolpathPasses, toolpathOffsets, List.getElem?_map, List.getElem?_range hi]
    rfl
  · unfold toolpathOffsets
    have hmono : ∀ a b : ℕ, a < b →
        offset_distance + path_spacing * (a : ℚ) < offset_distance + path_spacing * (b : ℚ) := by
      intro a b hab
      have hq : (a : ℚ) < (b : ℚ) := by exact_mod_cast hab
      have := mul_lt_mul_of_pos_left hq hs
      linarith
    exact List.Pairwise.map _ hmono (List.pairwise_lt_range num_passes)

/-- Witness for the amended C4 at the concrete occupancy model, one pass,
base offset 0 and spacing 1. -/
theorem compute_toolpaths_pass_structure_witness :
    computeToolpaths flagGeoModel true 0 1 1 =
      (toolpathPasses flagGeoModel true 0 1 1).flatten ∧
    (toolpathPasses flagGeoModel true 0 1 1).length = 1 ∧
    (∀ i : ℕ, i < 1 →
      (toolpathPasses flagGeoModel true 0 1 1)[i]? =
        some (toolpathPass flagGeoModel true (0 + 1 * (i : ℚ)))) ∧
    (toolpathOffsets 0 1 1).Pairwise (· < ·) :=
  compute_toolpaths_pass_structure flagGeoModel true 0 1 1 (by norm_num) (by norm_num)

/-- C5: when the union of the built geometry is empty (in particular when
no trace and no pad contributed any area), compute_toolpaths returns the
empty toolpath set — every pass buffers, simplifies and takes the boundary
of empty geometry, each of which is empty, and the final collection is
built from no parts, so no error arises. -/
theorem compute_toolpaths_empty_region (M : GeoModel)
    (traces : List ((ℚ × ℚ) × (ℚ × ℚ) × ℚ)) (pads : List ((ℚ × ℚ) × Aperture))
    (offset_distance path_spacing : ℚ) (num_passes : ℕ)
    (hempty : M.unionAll (buildGeometry M traces pads) = M.emptyGeo) :
    computeToolpaths M (M.unionAll (buildGeometry M traces pads))
      offset_distance num_passes path_spacing = [] := by
  rw [hempty]
  unfold computeToolpaths toolpathPasses toolpathPass
  have h1 : ∀ off : ℚ, M.boundary (M.simplify (M.buffer M.emptyGeo off) (3 / 100)) = [] := by
    intro off
    rw [M.buffer_empty, M.simplify_empty, M.boundary_empty]
  simp only [h1]
  exact flatten_map_nil _

/-- Witness for C5: the empty trace and pad lists build an empty region in
the occupancy model, and the three-pass toolpath computation over it is
empty. -/
theorem compute_toolpaths_empty_region_witness :
    computeToolpaths flagGeoModel
      (flagGeoModel.unionAll (buildGeometry flagGeoModel [] [])) (22 / 100) 3 (1 / 5) = [] :=
  compute_toolpaths_empty_region flagGeoModel [] [] (22 / 100) (1 / 5) 3 rfl

/-- C6 counterexample: at the point (2e9, 0), beyond the 1e9 sentinel, the
first update does not win — the stored minimum stays at the sentinel
instead of the point's x. -/
theorem extents_first_update_loses_beyond_sentinel :
    (initBoardExtents.update (2 * 10 ^ 9) 0 0).x_min ≠ 2 * 10 ^ 9 := by
  simp only [BoardExtents.update, initBoardExtents, sub_zero]
  rw [min_eq_left (by norm_num)]
  norm_num

/-- C6 (amended to points within the sentinel range): a never-updated
extents value is invalid, and after exactly one update at (x, y) with zero
margin and |x|, |y| ≤ 1e9 all four bounds collapse onto the point. -/
theorem extents_never_updated_invalid_and_first_update_wins (x y : ℚ)
    (hx : |x| ≤ 10 ^ 9) (hy : |y| ≤ 10 ^ 9) :
    ¬ initBoardExtents.is_valid ∧
    (initBoardExtents.update x y 0).x_min = x ∧
    (initBoardExtents.update x y 0).x_max = x ∧
    (initBoardExtents.update x y 0).y_min = y ∧
    (initBoardExtents.update x y 0).y_max = y := by
  obtain ⟨hx1, hx2⟩ := abs_le.mp hx
  obtain ⟨hy1, hy2⟩ := abs_le.mp hy
  refine ⟨?_, ?_, ?_, ?_, ?_⟩
  · intro h
    rcases h with ⟨h1, _⟩
    norm_num [initBoardExtents] at h1
  · simp only [BoardExtents.update, initBoardExtents, sub_zero]
    exact min_eq_right hx2
  · simp only [BoardExtents.update, initBoardExtents, add_zero]
    exact max_eq_right (by linarith)
  · simp only [BoardExtents.update, initBoardExtents, sub_zero]
    exact min_eq_right hy2
  · simp only [BoardExtents.update, initBoardExtents, add_zero]
    exact max_eq_right (by linarith)

/-- Witness for the amended C6 at the point (10, 20). -/
theorem extents_first_update_wins_witness :
    ¬ initBoardExtents.is_valid ∧
    (initBoardExtents.update 10 20 0).x_min = 10 ∧
    (initBoardExtents.update 10 20 0).x_max = 10 ∧
    (initBoardExtents.update 10 20 0).y_min = 20 ∧
    (initBoardExtents.update 10 20 0).y_max = 20 :=
  extents_never_updated_invalid_and_first_update_wins 10 20
    (by rw [abs_le]; constructor <;> norm_num)
    (by rw [abs_le]; constructor <;> norm_num)

/-- C7: under inch mode, the coordinate token 1000000 (one inch in
fixed-point millionths) converts to exactly 25.4 internal millimetres,
well within the 1e-6 tolerance. -/
theorem gerber_inch_unit_round_trip :
    ∃ x, currentXOfRun (parseGerberLines c7Lines) = some x ∧
      |x - 254 / 10| ≤ 1 / 1000000 := by
  refine ⟨127 / 5, by with_unfolding_all rfl, by norm_num⟩

/-- C8 counterexample: for the rounded-rectangle definition with corner
radius 2 and corner offsets (1,1) and (1,1) the parser stores width 4 =
|1| + |1| + 2, not the |1| + |1| + 2·2 = 6 that adding the radius on each
side would give. -/
theorem roundrect_width_not_radius_per_side :
    apertureOfRun (parseGerberLines [c8Line]) 10 =
      some { type := "rectangle", diameter := 0, width := 4, height := 4 } ∧
    ¬ ((4 : ℚ) = |(1 : ℚ)| + |(1 : ℚ)| + 2 * 2) := by
  constructor
  · with_unfolding_all rfl
  · simp only [abs_one]
    norm_num

/-- C8 (amended: the radius is added once, not once per side): a
rounded-rectangle definition is stored as a rectangle whose width is
|x1| + |x2| + r and whose height is |y1| + |y2| + r, as the concrete parse
of `%ADD10RoundRect,2X1X1X1X1*%` exhibits. -/
theorem roundrect_bounding_rect_radius_once (r x1 y1 x2 y2 : ℚ) :
    roundRectAperture r x1 y1 x2 y2 =
      { type := "rectangle", diameter := 0, width := |x1| + |x2| + r,
        height := |y1| + |y2| + r } ∧
    apertureOfRun (parseGerberLines [c8Line]) 10 = some (roundRectAperture 2 1 1 1 1) := by
  constructor
  · simp only [roundRectAperture, Aperture.mk.injEq]
    exact ⟨trivial, trivial, by ring, by ring⟩
  · with_unfolding_all rfl

/-- C9: the drill file `T1C0.800`, `T1`, `X10.0Y10.0` under METRIC mode
produces exactly one hole, at (10, 10) with diameter 0.8. -/
theorem drill_scenario_c_one_hole :
    holesOfRun (parseDrillLines c9Lines) = some [(10, 10, 4 / 5)] := by
  with_unfolding_all rfl

/-- With divisor 1, the coordinate rule is exactly the explicit-decimal
rule: both branches multiply the literal value by the unit multiplier. -/
theorem parseCoordScaled_one (s : List Char) (u : ℚ) :
    parseCoordScaled s 1 u = parseCoordExplicit s u := by
  unfold parseCoordScaled parseCoordExplicit
  cases hf : pyFloat s with
  | none => rfl
  | some v =>
    simp only
    split <;> simp [div_one]

/-- When the file has decimal coordinates, a unit directive changes only
the unit multiplier, provided the divisor is still at its initial 1. -/
theorem drillUnits_true_eq (st : DrillState) (lu : List Char) (h : st.coord_scale = 1) :
    drillUnits true st lu = drillUnitsExplicit st lu := by
  unfold drillUnits drillUnitsExplicit
  split_ifs <;> simp_all

/-- Explicit-mode unit directives never touch the divisor. -/
theorem drillUnitsExplicit_scale (st : DrillState) (lu : List Char) :
    (drillUnitsExplicit st lu).coord_scale = st.coord_scale := by
  unfold drillUnitsExplicit
  split_ifs <;> rfl

/-- The directive part never changes the divisor. -/
theorem drillDirectives_scale (cp : List Char → ℚ → ℚ → Except String ℚ)
    (st1 : DrillState) (line : List Char) (st' : DrillState)
    (h : drillDirectives cp st1 line = Except.ok st') :
    st'.coord_scale = st1.coord_scale := by
  unfold drillDirectives at h
  repeat' split at h
  all_goals first
    | exact Except.noConfusion h
    | (injection h with h2; subst h2; rfl)

/-- With divisor 1, the directive part coincides with its explicit-decimal
variant. -/
theorem drillDirectives_explicit (st1 : DrillState) (line : List Char)
    (h : st1.coord_scale = 1) :
    drillDirectives parseCoordScaled st1 line =
      drillDirectives (fun s _ u => parseCoordExplicit s u) st1 line := by
  unfold drillDirectives
  rw [h]
  simp only [parseCoordScaled_one]

/-- With divisor 1, one code step equals one explicit-mode step. -/
theorem drillStep_explicit_of_scale_one (st : DrillState) (raw : List Char)
    (h : st.coord_scale = 1) :
    drillStep true st raw = drillStepExplicit st raw := by
  unfold drillStep drillStepExplicit drillStepWith
  split_ifs with h1 h2
  · rfl
  · rfl
  · rw [drillUnits_true_eq st _ h]
    exact drillDirectives_explicit _ _ (by rw [drillUnitsExplicit_scale, h])

/-- An explicit-mode step never changes the divisor. -/
theorem drillStepExplicit_scale (st : DrillState) (raw : List Char) (st' : DrillState)
    (h : drillStepExplicit st raw = Except.ok st') :
    st'.coord_scale = st.coord_scale := by
  unfold drillStepExplicit drillStepWith at h
  split_ifs at h with h1 h2
  · injection h with h2'; subst h2'; rfl
  · injection h with h2'; subst h2'; rfl
  · rw [drillDirectives_scale _ _ _ _ h, drillUnitsExplicit_scale]

/-- Starting from divisor 1 (as `parseDrillLines` does), the whole loop
with detected decimal coordinates equals the explicit-decimal loop. -/
theorem drillFold_explicit_eq (ls : List (List Char)) : ∀ st : DrillState,
    st.coord_scale = 1 → drillFold true st ls = drillFoldExplicit st ls := by
  induction ls with
  | nil => intro st h; rfl
  | cons l ls ih =>
    intro st h
    simp only [drillFold, drillFoldExplicit]
    rw [drillStep_explicit_of_scale_one st l h]
    cases hstep : drillStepExplicit st l with
    | error e => rfl
    | ok st2 =>
      simp only
      exact ih st2 (by rw [drillStepExplicit_scale st l st2 hstep, h])

/-- A unit directive with no detected decimals installs the divisors the
implied-decimal convention prescribes. -/
theorem drillUnits_false_eq (st : DrillState) (lu : List Char) :
    drillUnits false st lu = drillUnitsImplied st lu := by
  unfold drillUnits drillUnitsImplied
  split_ifs <;> simp_all

/-- One code step without detected decimals equals one implied-convention
step. -/
theorem drillStep_implied_eq (st : DrillState) (raw : List Char) :
    drillStep false st raw = drillStepImplied st raw := by
  unfold drillStep drillStepImplied drillStepWith
  split_ifs with h1 h2
  · rfl
  · rfl
  · rw [drillUnits_false_eq]

/-- The whole loop without detected decimals equals the implied-convention
loop. -/
theorem drillFold_implied_eq (ls : List (List Char)) : ∀ st : DrillState,
    drillFold false st ls = drillFoldImplied st ls := by
  induction ls with
  | nil => intro st; rfl
  | cons l ls ih =>
    intro st
    simp only [drillFold, drillFoldImplied]
    rw [drillStep_implied_eq st l]
    cases hstep : drillStepImplied st l with
    | error e => rfl
    | ok st2 => exact ih st2

/-- C3: drill coordinate-format detection is file-global. If any
coordinate line's X-field contains a decimal point, the whole parse runs
in explicit-decimal mode — every coordinate token of every line is read as
a literal number times the unit multiplier, with no implied-decimal
divisor applied, even on lines without a visible point; otherwise the
whole parse follows the implied-decimal convention with its per-token
divisor rule. -/
theorem drill_format_detection_file_global (lines : List (List Char)) :
    (detectDecimalFormat lines = true →
      parseDrillLines lines = drillFoldExplicit initDrillState lines) ∧
    (detectDecimalFormat lines = false →
      parseDrillLines lines = drillFoldImplied initDrillState lines) := by
  constructor
  · intro hd
    unfold parseDrillLines
    rw [hd]
    exact drillFold_explicit_eq lines initDrillState rfl
  · intro hd
    unfold parseDrillLines
    rw [hd]
    exact drillFold_implied_eq lines initDrillState

/-- Witness for C3: a file containing the decimal coordinate line
`X10.0Y10.0` is detected as explicit and its whole parse equals the
explicit-decimal parse, including the divisor-free reading of the
pointless line `X100Y200`. -/
theorem drill_format_detection_file_global_witness :
    detectDecimalFormat c3Lines = true ∧
    parseDrillLines c3Lines = drillFoldExplicit initDrillState c3Lines :=
  ⟨by with_unfolding_all rfl,
   (drill_format_detection_file_global c3Lines).1 (by with_unfolding_all rfl)⟩

/-- Lookup after a dict insert finds the new key or falls through. -/
theorem alistFind_cons_isSome {α β : Type} [DecidableEq α] (k k' : α) (v : β)
    (rest : List (α × β)) :
    (alistFind k ((k', v) :: rest)).isSome = true ↔
      k' = k ∨ (alistFind k rest).isSome = true := by
  have he : alistFind k ((k', v) :: rest) = if k' = k then some v else alistFind k rest := rfl
  rw [he]
  split_ifs with hkk <;> simp [hkk]

/-- Unit directives do not touch the tool table. -/
theorem drillUnits_tool_diameters (hd : Bool) (st : DrillState) (lu : List Char) :
    (drillUnits hd st lu).tool_diameters = st.tool_diameters := by
  unfold drillUnits
  split_ifs <;> rfl

/-- Unit directives do not touch the hole list. -/
theorem drillUnits_holes (hd : Bool) (st : DrillState) (lu : List Char) :
    (drillUnits hd st lu).holes = st.holes := by
  unfold drillUnits
  split_ifs <;> rfl

/-- Unit directives do not touch the active tool. -/
theorem drillUnits_current_tool (hd : Bool) (st : DrillState) (lu : List Char) :
    (drillUnits hd st lu).current_tool = st.current_tool := by
  unfold drillUnits
  split_ifs <;> rfl

/-- A comment line cannot match the tool-definition pattern. -/
theorem toolDefMatch_none_of_semicolon (l : List Char) (h : l.head? = some ';') :
    toolDefMatch l = none := by
  cases l with
  | nil => rfl
  | cons c cs =>
    simp only [List.head?_cons, Option.some.injEq] at h
    subst h
    rfl

/-- A line matching the coordinate pattern starts with `X`. -/
theorem drillCoordMatch_head (l : List Char) (p : List Char × List Char)
    (h : drillCoordMatch l = some p) : ∃ r, l = 'X' :: r := by
  cases l with
  | nil => simp [drillCoordMatch] at h
  | cons c cs =>
    by_cases hc : c = 'X'
    · exact ⟨cs, by rw [hc]⟩
    · exfalso
      unfold drillCoordMatch at h
      split at h
      · rename_i r1 heq
        injection heq with h1 _
        exact hc h1
      · exact Option.noConfusion h

/-- The directive part registers a tool exactly when the line matches the
tool-definition pattern: membership in the resulting tool table is
membership in the incoming table or a character-for-character match of the
defined digit string. -/
theorem drillDirectives_tooldefs (cp : List Char → ℚ → ℚ → Except String ℚ)
    (st1 : DrillState) (line : List Char) (st' : DrillState)
    (h : drillDirectives cp st1 line = Except.ok st') (t : List Char) :
    ((alistFind t st'.tool_diameters).isSome = true ↔
      (alistFind t st1.tool_diameters).isSome = true ∨
      ∃ ds, toolDefMatch line = some (t, ds)) := by
  unfold drillDirectives at h
  cases htd : toolDefMatch line with
  | some td =>
    simp only [htd] at h
    cases hf : pyFloat td.2 with
    | none =>
      simp only [hf] at h
      exact Except.noConfusion h
    | some d =>
      simp only [hf] at h
      injection h with h2
      subst h2
      simp only [alistFind_cons_isSome, htd]
      constructor
      · rintro (h1 | h1)
        · exact Or.inr ⟨td.2, by rw [← h1]⟩
        · exact Or.inl h1
      · rintro (h1 | ⟨ds, hds⟩)
        · exact Or.inr h1
        · left
          have hte : td = (t, ds) := by injection hds
          rw [hte]
  | none =>
    simp only [htd] at h
    have hpres : st'.tool_diameters = st1.tool_diameters := by
      repeat' split at h
      all_goals first
        | exact Except.noConfusion h
        | (injection h with h2; subst h2; rfl)
    rw [hpres]
    simp

/-- One drill step registers a tool exactly when its stripped line matches
the tool-definition pattern. -/
theorem drillStep_tooldefs (hd : Bool) (st : DrillState) (raw : List Char) (st' : DrillState)
    (h : drillStep hd st raw = Except.ok st') (t : List Char) :
    ((alistFind t st'.tool_diameters).isSome = true ↔
      (alistFind t st.tool_diameters).isSome = true ∨
      ∃ ds, toolDefMatch (stripChars raw) = some (t, ds)) := by
  unfold drillStep drillStepWith at h
  split_ifs at h with h1 h2
  · injection h with h2'
    subst h2'
    rw [h1]
    simp [toolDefMatch]
  · injection h with h2'
    subst h2'
    simp [toolDefMatch_none_of_semicolon _ h2]
  · have hiff := drillDirectives_tooldefs _ _ _ _ h t
    rwa [drillUnits_tool_diameters] at hiff

/-- Over a whole run, the tool table holds a digit string exactly when some
line of the file defines that exact digit string. -/
theorem drillFold_tooldefs (ls : List (List Char)) : ∀ (hd : Bool) (st st' : DrillState),
    drillFold hd st ls = Except.ok st' → ∀ t,
    ((alistFind t st'.tool_diameters).isSome = true ↔
      (alistFind t st.tool_diameters).isSome = true ∨
      ∃ l ∈ ls, ∃ ds, toolDefMatch (stripChars l) = some (t, ds)) := by
  induction ls with
  | nil =>
    intro hd st st' h t
    injection h with h2
    subst h2
    simp
  | cons l ls ih =>
    intro hd st st' h t
    simp only [drillFold] at h
    cases hstep : drillStep hd st l with
    | error e => rw [hstep] at h; exact Except.noConfusion h
    | ok st2 =>
      rw [hstep] at h
      have hstep2 := drillStep_tooldefs hd st l st2 hstep t
      have hrest := ih hd st2 st' h t
      rw [hrest, hstep2]
      constructor
      · rintro ((ha | ⟨ds, hds⟩) | ⟨l', hl', ds, hds⟩)
        · exact Or.inl ha
        · exact Or.inr ⟨l, List.mem_cons_self l ls, ds, hds⟩
        · exact Or.inr ⟨l', List.mem_cons_of_mem l hl', ds, hds⟩
      · rintro (ha | ⟨l', hl', ds, hds⟩)
        · exact Or.inl (Or.inl ha)
        · rcases List.mem_cons.mp hl' with heq | hmem
          · subst heq
            exact Or.inl (Or.inr ⟨ds, hds⟩)
          · exact Or.inr ⟨l', hmem, ds, hds⟩

/-- The directive part on a coordinate line with an active tool appends one
hole whose diameter is looked up under the active tool's exact digit
string, defaulting to 0.8. -/
theorem drillDirectives_coord_hole (cp : List Char → ℚ → ℚ → Except String ℚ)
    (st1 : DrillState) (line : List Char) (st' : DrillState) (t xs ys : List Char)
    (hct : st1.current_tool = some t)
    (hcm : drillCoordMatch line = some (xs, ys))
    (h : drillDirectives cp st1 line = Except.ok st') :
    ∃ x y, st'.holes = st1.holes ++ [(x, y, (alistFind t st1.tool_diameters).getD (4 / 5))] := by
  obtain ⟨r, hr⟩ := drillCoordMatch_head line (xs, ys) hcm
  have htd : toolDefMatch line = none := by rw [hr]; rfl
  have hts : toolSelMatch line = none := by rw [hr]; rfl
  unfold drillDirectives at h
  simp only [htd, hts, hcm, hct] at h
  cases hx : cp xs st1.coord_scale st1.units_mult with
  | error e =>
    simp only [hx] at h
    exact Except.noConfusion h
  | ok x =>
    cases hy : cp ys st1.coord_scale st1.units_mult with
    | error e =>
      simp only [hx, hy] at h
      exact Except.noConfusion h
    | ok y =>
      simp only [hx, hy] at h
      injection h with h2
      exact ⟨x, y, by rw [← h2]⟩

/-- One drill step on a coordinate line with an active tool appends one
hole with the active tool's looked-up diameter (default 0.8). -/
theorem drillStep_coord_hole (hd : Bool) (st : DrillState) (raw : List Char) (st' : DrillState)
    (t xs ys : List Char)
    (hct : st.current_tool = some t)
    (hcm : drillCoordMatch (stripChars raw) = some (xs, ys))
    (h : drillStep hd st raw = Except.ok st') :
    ∃ x y, st'.holes = st.holes ++ [(x, y, (alistFind t st.tool_diameters).getD (4 / 5))] := by
  unfold drillStep drillStepWith at h
  split_ifs at h with h1 h2
  · rw [h1] at hcm
    exact absurd hcm (by simp [drillCoordMatch])
  · obtain ⟨r, hr⟩ := drillCoordMatch_head _ _ hcm
    rw [hr] at h2
    simp at h2
  · have hh := drillDirectives_coord_hole _ _ _ _ t xs ys
      (by rw [drillUnits_current_tool, hct]) hcm h
    rwa [drillUnits_holes, drillUnits_tool_diameters] at hh

/-- C10 (implicit): drill tool identifiers are matched as exact digit
strings, not numerically. Concretely, defining `T01C1.2` and selecting
`T1` yields a hole with the fixed default diameter 0.8, while selecting
`T01` yields the defined 1.2. In general, after any successful run the
tool table holds a digit string exactly when some line defines that exact
string character for character, and every hole appended under an active
tool carries that tool's looked-up diameter with 0.8 as the only
fallback. -/
theorem drill_tool_exact_digit_string_match :
    holesOfRun (parseDrillLines c10LinesNumEq) = some [(1, 1, 4 / 5)] ∧
    holesOfRun (parseDrillLines c10LinesExact) = some [(1, 1, 6 / 5)] ∧
    (∀ (lines : List (List Char)) (st : DrillState) (t : List Char),
      parseDrillLines lines = Except.ok st →
      ((alistFind t st.tool_diameters).isSome = true ↔
        ∃ l ∈ lines, ∃ ds, toolDefMatch (stripChars l) = some (t, ds))) ∧
    (∀ (hd : Bool) (st : DrillState) (raw : List Char) (st' : DrillState)
        (t xs ys : List Char),
      st.current_tool = some t →
      drillCoordMatch (stripChars raw) = some (xs, ys) →
      drillStep hd st raw = Except.ok st' →
      ∃ x y, st'.holes = st.holes ++ [(x, y, (alistFind t st.tool_diameters).getD (4 / 5))]) := by
  refine ⟨by with_unfolding_all rfl, by with_unfolding_all rfl, ?_, ?_⟩
  · intro lines st t h
    have hiff := drillFold_tooldefs lines (detectDecimalFormat lines) initDrillState st h t
    simpa [initDrillState, alistFind] using hiff
  · intro hd st raw st' t xs ys hct hcm h
    exact drillStep_coord_hole hd st raw st' t xs ys hct hcm h

/-- Witness for C10's general clauses: the one-line file `T1C2.0` reaches
the state registering tool `1`, whose lookup succeeds exactly because that
line defines the digit string `1`; and one coordinate step from a state
with active tool `1` and empty tool table appends the default-diameter
hole. -/
theorem drill_tool_exact_digit_string_match_witness :
    ((alistFind "1".data c10WitnessState.tool_diameters).isSome = true ↔
      ∃ l ∈ ["T1C2.0".data], ∃ ds, toolDefMatch (stripChars l) = some ("1".data, ds)) ∧
    (∃ x y, c10StepResult.holes =
      c10StepState.holes ++
        [(x, y, (alistFind "1".data c10StepState.tool_diameters).getD (4 / 5))]) :=
  ⟨drill_tool_exact_digit_string_match.2.2.1 ["T1C2.0".data] c10WitnessState "1".data
      (by with_unfolding_all rfl),
   drill_tool_exact_digit_string_match.2.2.2 true c10StepState "X1.0Y1.0".data c10StepResult
      "1".data "1.0".data "1.0".data rfl (by with_unfolding_all rfl)
      (by with_unfolding_all rfl)⟩
